import Mathlib

/-!
Shallow embedding of the RehaGrip motor controller (src/code/backend/server.py).

Python floats are modelled as exact rationals, Python ints as `Int`.
Transport interaction (the Dynamixel register reads/writes done through
`packetHandler`) is modelled by an event list emitted by each handler, in
program order; the values returned by present-position reads are supplied
to each handler as explicit oracle arguments, since the device is an
external collaborator.
-/

namespace RehaGrip

/-- Python `int()` applied to a rational: truncation toward zero. -/
def pyInt (q : ℚ) : ℤ := if 0 ≤ q then ⌊q⌋ else ⌈q⌉

/-- `RIGHT_CENTER_TICK` (server.py line 204). -/
def RIGHT_CENTER_TICK : ℤ := 3046

/-- `LEFT_CENTER_TICK` (server.py line 205). -/
def LEFT_CENTER_TICK : ℤ := 1000

/-- One interaction with the actuator transport, in program order.
`readPresent` is a `read4ByteTxRx` of the present-position register with the
value the device returned; the writes are the `write.ByteTxRx` calls to the
torque-enable, profile-velocity and goal-position registers. -/
inductive TransportEvent where
  | readPresent (result : ℤ)
  | writeTorque (v : ℤ)
  | writeVelocity (v : ℤ)
  | writeGoal (v : ℤ)
deriving DecidableEq

/-- The `State` class of server.py (lines 111-122). -/
structure State where
  position : ℚ
  target : ℚ
  velocity : ℚ
  load : ℚ
  moving : Bool
  locked : Bool
  torque : Bool
  emergency : Bool
  hand : String
deriving DecidableEq

/-- The full mutable server state: the `State` instance plus the module-level
globals `center_tick` (an int once assigned, `None` before) and
`center_offset` (line 108). -/
structure ServerState where
  st : State
  center_tick : Option ℤ
  center_offset : ℤ
deriving DecidableEq

/-- `State()` constructor defaults (server.py lines 112-121). -/
def initState : State :=
  { position := 0, target := 0, velocity := 50, load := 0, moving := false,
    locked := false, torque := true, emergency := false, hand := "right" }

/-- Server state after the startup sequence: `state` at its constructor
defaults with `hand = "right"` (line 209), `center_offset = 0` (line 108) and
`center_tick` holding whatever tick `move_to_tick_if_needed` returned
(line 208), passed in as `center`. -/
def startupState (center : ℤ) : ServerState :=
  { st := initState, center_tick := some center, center_offset := 0 }

/-- A server state in which `center_tick` was never established
(the situation the defensive `if center_tick is None` check of
`motor_move`, line 347, guards against). -/
def noCenterState : ServerState :=
  { st := initState, center_tick := none, center_offset := 0 }

/-- Body of a `MoveRequest` (server.py lines 223-226; the unused `hand`
field is omitted). -/
structure MoveRequest where
  position : ℚ
  velocity : Option ℚ
deriving DecidableEq

/-- The JSON object `motor_move` returns on success (lines 374-380). -/
structure MoveResult where
  position : ℚ
  position_tick : ℤ
  target_tick : ℤ
  requested_degrees : ℚ
deriving DecidableEq

/-- Outcome of one `motor_move` request: the HTTP response (an
`HTTPException` detail string on failure), the server state after the
handler, and the transport events it performed. -/
structure MoveOut where
  resp : Except String MoveResult
  state : ServerState
  events : List TransportEvent

/-- `motor_move` (server.py lines 342-380).  `readTick` is the value
`get_current_tick()` would return inside the `center_tick is None` branch;
`presentPos` is the present-position read after the goal write (line 369). -/
def motor_move (s : ServerState) (req : MoveRequest) (readTick presentPos : ℤ) :
    MoveOut :=
  if s.st.emergency = true ∨ s.st.locked = true ∨ s.st.torque = false then
    { resp := .error "Cannot move: locked/torque/emergency", state := s, events := [] }
  else
    let centerRead : ℤ × List TransportEvent :=
      match s.center_tick with
      | none => (readTick, [TransportEvent.readPresent readTick])
      | some c => (c, [])
    let center : ℤ := centerRead.1
    let degrees : ℚ := if s.st.hand = "left" then -req.position else req.position
    let desired0 : ℤ := pyInt ((center : ℚ) + degrees * ((4095 : ℚ) / 360))
    let desired : ℤ := if desired0 < 0 then 0 else if desired0 > 4095 then 4095 else desired0
    let velEvents : List TransportEvent :=
      match req.velocity with
      | none => []
      | some v => [TransportEvent.writeVelocity (pyInt v)]
    let actual : ℚ := (((presentPos : ℚ) - (center : ℚ)) / 4095) * 360
    { resp := .ok { position := actual, position_tick := presentPos,
                    target_tick := desired, requested_degrees := degrees },
      state := { s with st := { s.st with position := actual, moving := false },
                        center_tick := some center },
      events := centerRead.2 ++ velEvents ++
        [TransportEvent.writeGoal desired, TransportEvent.readPresent presentPos] }

/-- The JSON object `motor_status` returns (server.py lines 268-277). -/
structure StatusResult where
  position : ℚ
  position_tick : ℤ
  center_tick : ℤ
  load : ℚ
  moving : Bool
  locked : Bool
  torque : Bool
  emergency : Bool
deriving DecidableEq

/-- `motor_status` (server.py lines 263-277).  `readTick` is the value of the
present-position read.  When `center_tick` is still `None` the Python body
raises a `TypeError` on the subtraction, modelled as `none`. -/
def motor_status (s : ServerState) (readTick : ℤ) :
    Option (StatusResult × ServerState × List TransportEvent) :=
  match s.center_tick with
  | none => none
  | some c =>
    let deg : ℚ := (((readTick : ℚ) - (c : ℚ)) / 4095) * 360
    some ({ position := deg, position_tick := readTick, center_tick := c,
            load := s.st.load, moving := s.st.moving, locked := s.st.locked,
            torque := s.st.torque, emergency := s.st.emergency },
          { s with st := { s.st with position := deg } },
          [TransportEvent.readPresent readTick])

/-- `set_center` (server.py lines 256-261): adopt the current present-position
read as the new `center_tick`. -/
def set_center (s : ServerState) (readTick : ℤ) : ServerState × List TransportEvent :=
  ({ s with center_tick := some readTick }, [TransportEvent.readPresent readTick])

/-- `recenter_motor` (server.py lines 396-410): command goal position 2048,
wait, read the present position (`readTick`) and adopt it, unclamped, as the
new `center_tick`. -/
def recenter_motor (s : ServerState) (readTick : ℤ) : ServerState × List TransportEvent :=
  ({ s with center_tick := some readTick },
   [TransportEvent.writeGoal 2048, TransportEvent.readPresent readTick])

/-- `set_lock` (server.py lines 448-452): pure flag flip, no transport. -/
def set_lock (s : ServerState) (locked : Bool) : ServerState × List TransportEvent :=
  ({ s with st := { s.st with locked := locked } }, [])

/-- `set_torque` (server.py lines 454-472).  Enabling writes torque-enable
only.  Disabling first reads the current tick (`readTick`), records
`center_offset = current_tick - center_tick`, then writes torque-disable.
If `center_tick` were still `None` the Python subtraction would raise a
`TypeError`, modelled as `none`. -/
def set_torque (s : ServerState) (torque : Bool) (readTick : ℤ) :
    Option (ServerState × List TransportEvent) :=
  if torque then
    some ({ s with st := { s.st with torque := true } },
          [TransportEvent.writeTorque 1])
  else
    match s.center_tick with
    | none => none
    | some c =>
      some ({ s with st := { s.st with torque := false },
                     center_offset := readTick - c },
            [TransportEvent.readPresent readTick, TransportEvent.writeTorque 0])

/-- `emergency_stop` (server.py lines 476-486): record the flag, then force
torque off (with a torque-disable write) when engaging, and torque on (with a
torque-enable write) when clearing. -/
def emergency_stop (s : ServerState) (stop : Bool) : ServerState × List TransportEvent :=
  if stop then
    ({ s with st := { s.st with emergency := stop, torque := false } },
     [TransportEvent.writeTorque 0])
  else
    ({ s with st := { s.st with emergency := stop, torque := true } },
     [TransportEvent.writeTorque 1])

/-- Outcome of one `set_hand` request.  `trace` records the full server state
at each observable point during the handler, in order: right after the
goal-position write (by which time `center_tick` has already been
reassigned, line 437-442), at each present-position poll performed by
`wait_until_arrived` (line 443; its return value is discarded), and at
completion (after `state.hand` is finally assigned, line 445). -/
structure HandOut where
  resp : Except String (String × ℤ)
  state : ServerState
  events : List TransportEvent
  trace : List ServerState

/-- `set_hand` (server.py lines 428-446).  `polls` lists the present-position
values read by the `wait_until_arrived` polling loop. -/
def set_hand (s : ServerState) (new_hand : String) (polls : List ℤ) : HandOut :=
  if new_hand ≠ "left" ∧ new_hand ≠ "right" then
    { resp := .error "hand must be left or right", state := s, events := [], trace := [] }
  else
    let c : ℤ := if new_hand = "right" then RIGHT_CENTER_TICK else LEFT_CENTER_TICK
    let s1 : ServerState := { s with center_tick := some c }
    let s2 : ServerState := { s1 with st := { s1.st with hand := new_hand } }
    { resp := .ok (new_hand, c),
      state := s2,
      events := TransportEvent.writeGoal c :: polls.map TransportEvent.readPresent,
      trace := s1 :: (polls.map (fun _ => s1) ++ [s2]) }

/-- One operation of the controller, with the transport read results each
needs supplied as oracle data. -/
inductive Op where
  | move (req : MoveRequest) (readTick presentPos : ℤ)
  | lock (locked : Bool)
  | torque (t : Bool) (readTick : ℤ)
  | emergency (stop : Bool)
  | hand (h : String) (polls : List ℤ)
  | recenter (readTick : ℤ)
  | center (readTick : ℤ)
deriving DecidableEq

/-- The server state after one operation.  A handler that raises before any
mutation (interlock failure, invalid hand, `TypeError` on a `None` center)
leaves the state unchanged. -/
def step (s : ServerState) : Op → ServerState
  | .move req r p => (motor_move s req r p).state
  | .lock l => (set_lock s l).1
  | .torque t r =>
    match set_torque s t r with
    | some (s2, _) => s2
    | none => s
  | .emergency stop => (emergency_stop s stop).1
  | .hand h polls => (set_hand s h polls).state
  | .recenter r => (recenter_motor s r).1
  | .center r => (set_center s r).1

/-- A startup state on which `set_lock(true)` has been applied: a concrete
state whose interlock blocks motion. -/
def lockedState : ServerState := (set_lock (startupState 3046) true).1

/-- C1 counterexample: from the startup state, engage the emergency stop and
then call `set_torque(true)`.  The resulting state has `emergency = true` and
`torque = true` simultaneously, so the claimed invariant is not preserved by
the torque-enable operation. -/
theorem C1_counterexample :
    (step (step (startupState 3046) (Op.emergency true)) (Op.torque true 3046)).st.emergency
      = true ∧
    (step (step (startupState 3046) (Op.emergency true)) (Op.torque true 3046)).st.torque
      = true := by
  constructor <;> simp [step, emergency_stop, set_torque, startupState, initState]

/-- C1 (amended): `set_emergency(true)` always forces `torque = false`, and
the implication `emergency = true → torque = false` is preserved by every
operation except `set_torque(true)`, which re-enables torque without
consulting the emergency flag. -/
theorem C1_amended (s : ServerState) (op : Op)
    (hinv : s.st.emergency = true → s.st.torque = false)
    (hop : ∀ r : ℤ, op ≠ Op.torque true r) :
    (step s (Op.emergency true)).st.torque = false ∧
    ((step s op).st.emergency = true → (step s op).st.torque = false) := by
  constructor
  · simp [step, emergency_stop]
  · cases op with
    | move req r p =>
      simp only [step, motor_move]
      split
      · exact hinv
      · simpa using hinv
    | lock l => simpa [step, set_lock] using hinv
    | torque t r =>
      cases t with
      | true => exact absurd rfl (hop r)
      | false =>
        simp only [step, set_torque]
        cases hc : s.center_tick with
        | none => simpa [hc] using hinv
        | some c => simp [hc]
    | emergency stop => cases stop <;> simp [step, emergency_stop]
    | hand h polls =>
      simp only [step, set_hand]
      split
      · exact hinv
      · simpa using hinv
    | recenter r => simpa [step, recenter_motor] using hinv
    | center r => simpa [step, set_center] using hinv

/-- C1 witness: the amended invariant instantiated at the startup state and a
`set_lock(true)` operation. -/
theorem C1_amended_witness :
    (step (startupState 3046) (Op.emergency true)).st.torque = false ∧
    ((step (startupState 3046) (Op.lock true)).st.emergency = true →
      (step (startupState 3046) (Op.lock true)).st.torque = false) :=
  C1_amended (startupState 3046) (Op.lock true)
    (fun h => by simp [startupState, initState] at h)
    (fun r h => by cases h)

/-- C2: `motor_move` answers the interlock error exactly when one of
emergency / locked / torque-off holds at request time, and on that failure
the server state is unchanged and no transport event is issued. -/
theorem C2_interlock_iff (s : ServerState) (req : MoveRequest) (r p : ℤ) :
    ((motor_move s req r p).resp = .error "Cannot move: locked/torque/emergency" ↔
      (s.st.emergency = true ∨ s.st.locked = true ∨ s.st.torque = false)) ∧
    ((s.st.emergency = true ∨ s.st.locked = true ∨ s.st.torque = false) →
      (motor_move s req r p).state = s ∧ (motor_move s req r p).events = []) := by
  by_cases h : s.st.emergency = true ∨ s.st.locked = true ∨ s.st.torque = false
  · simp [motor_move, h]
  · simp [motor_move, h]

/-- C2 witness: with `locked = true`, a 10 degree move fails with the
interlock error and changes nothing. -/
theorem C2_interlock_witness :
    (motor_move lockedState ⟨10, none⟩ 0 0).resp
        = .error "Cannot move: locked/torque/emergency" ∧
    (motor_move lockedState ⟨10, none⟩ 0 0).state = lockedState ∧
    (motor_move lockedState ⟨10, none⟩ 0 0).events = [] := by
  have h := C2_interlock_iff lockedState ⟨10, none⟩ 0 0
  have hint : lockedState.st.emergency = true ∨ lockedState.st.locked = true ∨
      lockedState.st.torque = false := by
    simp [lockedState, set_lock, startupState, initState]
  exact ⟨h.1.mpr hint, (h.2 hint).1, (h.2 hint).2⟩

/-- C3 counterexample: at center 3046, hand RIGHT, request 45 degrees, the
code computes goal tick 3557 (Python `int()` truncation of 3557.875), while
the claimed formula `center + round(degrees * 4095 / 360)` gives 3558. -/
theorem C3_counterexample :
    ∃ res : MoveResult, (motor_move (startupState 3046) ⟨45, none⟩ 0 3557).resp = .ok res ∧
      res.target_tick = 3557 ∧
      (3046 : ℤ) + round ((45 : ℚ) * 4095 / 360) = 3558 ∧
      (3557 : ℤ) ≠ 3558 := by
  refine ⟨{ position := ((3557 : ℚ) - 3046) / 4095 * 360, position_tick := 3557,
            target_tick := 3557, requested_degrees := 45 }, ?_, rfl, ?_, by decide⟩
  · simp [motor_move, startupState, initState, pyInt]
    norm_num
  · rw [round_eq]
    norm_num

/-- C3 (amended): the goal tick is the Python `int()` truncation toward zero
of `center + degrees * 4095 / 360` (hand sign applied to degrees), clamped to
`[0, 4095]` — truncation of the sum, not rounding of the offset. -/
theorem C3_truncated_goal (s : ServerState) (req : MoveRequest) (r p c : ℤ)
    (hc : s.center_tick = some c)
    (hok : ¬(s.st.emergency = true ∨ s.st.locked = true ∨ s.st.torque = false)) :
    ∀ res : MoveResult, (motor_move s req r p).resp = .ok res →
      res.target_tick =
        max 0 (min 4095 (pyInt ((c : ℚ) +
          (if s.st.hand = "left" then -req.position else req.position)
            * ((4095 : ℚ) / 360)))) := by
  intro res hres
  simp only [motor_move, if_neg hok, hc] at hres
  rw [Except.ok.injEq] at hres
  rw [← hres]
  simp only []
  split_ifs <;> omega

/-- C3 witness: the amended formula evaluated at center 3046, hand RIGHT,
45 degrees yields goal tick 3557. -/
theorem C3_truncated_goal_witness :
    ∃ res : MoveResult, (motor_move (startupState 3046) ⟨45, none⟩ 0 3557).resp = .ok res ∧
      res.target_tick = 3557 := by
  have hres : (motor_move (startupState 3046) ⟨45, none⟩ 0 3557).resp =
      .ok { position := ((3557 : ℚ) - 3046) / 4095 * 360, position_tick := 3557,
            target_tick := 3557, requested_degrees := 45 } := by
    simp [motor_move, startupState, initState, pyInt]
    norm_num
  refine ⟨_, hres, ?_⟩
  have h := C3_truncated_goal (startupState 3046) ⟨45, none⟩ 0 3557 3046 rfl
    (by simp [startupState, initState]) _ hres
  rw [h, if_neg (by simp [startupState, initState] :
    ¬(startupState 3046).st.hand = "left")]
  norm_num [pyInt]

/-- C4: with an established in-range center and a degree request in
`[-360, 360]`, `motor_move` succeeds (never rejects for range) with a goal
tick inside `[0, 4095]`, and every goal-position transport write it issues is
inside `[0, 4095]`. -/
theorem C4_goal_in_range (s : ServerState) (req : MoveRequest) (r p c : ℤ)
    (hc : s.center_tick = some c) (hc0 : 0 ≤ c) (hc1 : c ≤ 4095)
    (hd0 : -360 ≤ req.position) (hd1 : req.position ≤ 360)
    (hok : ¬(s.st.emergency = true ∨ s.st.locked = true ∨ s.st.torque = false)) :
    (∃ res : MoveResult, (motor_move s req r p).resp = .ok res ∧
        0 ≤ res.target_tick ∧ res.target_tick ≤ 4095) ∧
    (∀ v : ℤ, TransportEvent.writeGoal v ∈ (motor_move s req r p).events →
        0 ≤ v ∧ v ≤ 4095) := by
  obtain ⟨pos, vel⟩ := req
  cases vel <;>
  · simp only [motor_move, if_neg hok, hc]
    refine ⟨⟨_, rfl, ?_⟩, ?_⟩
    · simp only []
      split_ifs <;> omega
    · intro v hv
      simp at hv
      subst hv
      split_ifs <;> omega

/-- C4 witness: the spec's own scenario, center 3046 and a 200 degree
request, yields a goal tick clamped inside `[0, 4095]`. -/
theorem C4_goal_in_range_witness :
    ∃ res : MoveResult, (motor_move (startupState 3046) ⟨200, none⟩ 0 4095).resp = .ok res ∧
      0 ≤ res.target_tick ∧ res.target_tick ≤ 4095 := by
  obtain ⟨⟨res, h1, h2, h3⟩, _⟩ := C4_goal_in_range (startupState 3046) ⟨200, none⟩ 0 4095 3046
    rfl (by norm_num) (by norm_num) (by norm_num) (by norm_num)
    (by simp [startupState, initState])
  exact ⟨res, h1, h2, h3⟩

/-- C5: the degrees reported by `motor_move` and by `motor_status` both equal
`(present_tick - center) * 360 / 4095`, with no hand sign applied: the
statement holds for every state, whatever its `hand` field. -/
theorem C5_raw_frame (s : ServerState) (req : MoveRequest) (r p q c : ℤ)
    (hc : s.center_tick = some c)
    (hok : ¬(s.st.emergency = true ∨ s.st.locked = true ∨ s.st.torque = false)) :
    (∀ res : MoveResult, (motor_move s req r p).resp = .ok res →
        res.position = ((p : ℚ) - (c : ℚ)) * 360 / 4095) ∧
    (∀ out : StatusResult × ServerState × List TransportEvent,
        motor_status s q = some out →
        out.1.position = ((q : ℚ) - (c : ℚ)) * 360 / 4095) := by
  constructor
  · intro res hres
    simp only [motor_move, if_neg hok, hc, Except.ok.injEq] at hres
    rw [← hres]
    simp only []
    ring
  · intro out hout
    simp only [motor_status, hc, Option.some.injEq] at hout
    rw [← hout]
    simp only []
    ring

/-- C5 witness: at center 3046 and present tick 3557 the reported position is
`(3557 - 3046) * 360 / 4095`, on a RIGHT-hand state. -/
theorem C5_raw_frame_witness :
    ∃ res : MoveResult, (motor_move (startupState 3046) ⟨45, none⟩ 0 3557).resp = .ok res ∧
      res.position = ((3557 : ℚ) - 3046) * 360 / 4095 := by
  have hres : (motor_move (startupState 3046) ⟨45, none⟩ 0 3557).resp =
      .ok { position := ((3557 : ℚ) - 3046) / 4095 * 360, position_tick := 3557,
            target_tick := 3557, requested_degrees := 45 } := by
    simp [motor_move, startupState, initState, pyInt]
    norm_num
  have h5 := (C5_raw_frame (startupState 3046) ⟨45, none⟩ 0 3557 3557 3046 rfl
    (by simp [startupState, initState])).1 _ hres
  refine ⟨_, hres, ?_⟩
  rw [h5]
  norm_num

/-- C6 counterexample: with `center_tick` still `None` and a passing
interlock, `motor_move` does not fail; it adopts the current tick as the
center, succeeds, and issues a goal-position write. -/
theorem C6_counterexample :
    ∃ res : MoveResult, (motor_move noCenterState ⟨0, none⟩ 2000 2000).resp = .ok res ∧
      TransportEvent.writeGoal res.target_tick
        ∈ (motor_move noCenterState ⟨0, none⟩ 2000 2000).events := by
  refine ⟨{ position := ((2000 : ℚ) - 2000) / 4095 * 360, position_tick := 2000,
            target_tick := 2000, requested_degrees := 0 }, ?_, ?_⟩
  · simp [motor_move, noCenterState, initState, pyInt]
  · simp [motor_move, noCenterState, initState, pyInt]

/-- C6 (amended): when `center_tick` is `None` and the interlock passes,
`motor_move` silently reads the present position, adopts it as the new
center, succeeds, and issues a goal-position write — there is no
no-center error path in the code. -/
theorem C6_adopts_current_center (s : ServerState) (req : MoveRequest) (r p : ℤ)
    (hc : s.center_tick = none)
    (hok : ¬(s.st.emergency = true ∨ s.st.locked = true ∨ s.st.torque = false)) :
    (∃ res : MoveResult, (motor_move s req r p).resp = .ok res) ∧
    (motor_move s req r p).state.center_tick = some r ∧
    ∃ v : ℤ, TransportEvent.writeGoal v ∈ (motor_move s req r p).events := by
  obtain ⟨pos, vel⟩ := req
  cases vel <;>
  · simp only [motor_move, if_neg hok, hc]
    refine ⟨⟨_, rfl⟩, by trivial, ?_⟩
    simp

/-- C6 witness: the amended behavior at a concrete center-less state. -/
theorem C6_adopts_current_center_witness :
    (motor_move noCenterState ⟨0, none⟩ 2000 2000).state.center_tick = some 2000 :=
  (C6_adopts_current_center noCenterState ⟨0, none⟩ 2000 2000 rfl
    (by simp [noCenterState, initState])).2.1

/-- C7 counterexample: during `set_hand("left")` from the startup (RIGHT)
state there is an observable point — every poll of the arrival wait — at
which `center_tick` already holds `LEFT_CENTER_TICK` while `hand` still
holds `"right"`: the pair is not updated together. -/
theorem C7_counterexample :
    ∃ t : ServerState, t ∈ (set_hand (startupState 3046) "left" [1005]).trace ∧
      t.center_tick = some LEFT_CENTER_TICK ∧ t.st.hand = "right" ∧
      (startupState 3046).center_tick = some RIGHT_CENTER_TICK ∧
      (set_hand (startupState 3046) "left" [1005]).state.st.hand = "left" ∧
      (set_hand (startupState 3046) "left" [1005]).state.center_tick
        = some LEFT_CENTER_TICK := by
  refine ⟨{ st := initState, center_tick := some 1000, center_offset := 0 }, ?_,
    rfl, rfl, rfl, ?_, ?_⟩ <;>
    simp [set_hand, startupState, LEFT_CENTER_TICK]

/-- C7 (amended): `set_hand("left")` reassigns `center_tick` to
`LEFT_CENTER_TICK` before the goal write and the arrival-confirmation wait,
and updates `hand` only afterwards; after completion both match, every
observable point of the operation already shows the new center, and every
point before the last still shows the old hand. -/
theorem C7_center_before_hand (s : ServerState) (polls : List ℤ) :
    (set_hand s "left" polls).state.st.hand = "left" ∧
    (set_hand s "left" polls).state.center_tick = some LEFT_CENTER_TICK ∧
    (∀ t : ServerState, t ∈ (set_hand s "left" polls).trace →
        t.center_tick = some LEFT_CENTER_TICK) ∧
    (∀ t : ServerState, t ∈ (set_hand s "left" polls).trace.dropLast →
        t.st.hand = s.st.hand) := by
  have htr : (set_hand s "left" polls).trace =
      ({ s with center_tick := some LEFT_CENTER_TICK } ::
        polls.map (fun _ => { s with center_tick := some LEFT_CENTER_TICK })) ++
      [{ s with st := { s.st with hand := "left" },
                center_tick := some LEFT_CENTER_TICK }] := by
    simp [set_hand]
  have hst : (set_hand s "left" polls).state =
      { s with st := { s.st with hand := "left" },
               center_tick := some LEFT_CENTER_TICK } := by
    simp [set_hand]
  refine ⟨by rw [hst], by rw [hst], ?_, ?_⟩
  · intro t ht
    rw [htr] at ht
    rcases List.mem_append.mp ht with h1 | h2
    · rcases List.mem_cons.mp h1 with rfl | hmap
      · rfl
      · obtain ⟨x, -, rfl⟩ := List.mem_map.mp hmap
        rfl
    · rcases List.mem_singleton.mp h2 with rfl
      rfl
  · intro t ht
    rw [htr, List.dropLast_concat] at ht
    rcases List.mem_cons.mp ht with rfl | hmap
    · rfl
    · obtain ⟨x, -, rfl⟩ := List.mem_map.mp hmap
      rfl

/-- C7 witness: the amended statement at the startup state with one poll. -/
theorem C7_center_before_hand_witness :
    (set_hand (startupState 3046) "left" [1005]).state.st.hand = "left" ∧
    (set_hand (startupState 3046) "left" [1005]).state.center_tick
      = some LEFT_CENTER_TICK ∧
    ServerState.center_tick { st := initState, center_tick := some 1000, center_offset := 0 }
      = some LEFT_CENTER_TICK := by
  refine ⟨(C7_center_before_hand (startupState 3046) [1005]).1,
    (C7_center_before_hand (startupState 3046) [1005]).2.1,
    (C7_center_before_hand (startupState 3046) [1005]).2.2.1 _ ?_⟩
  simp [set_hand, startupState, LEFT_CENTER_TICK]

/-- C8: disabling torque with center `c` and present tick `t` records
`center_offset = t - c`, with the present-position read occurring before the
torque-disable write; a subsequent torque-enable writes torque-enable only
and leaves both `center_tick` and `center_offset` unchanged. -/
theorem C8_torque_offset (s : ServerState) (c t r : ℤ) (hc : s.center_tick = some c) :
    ∃ s3 ev, set_torque s false t = some (s3, ev) ∧
      s3.center_offset = t - c ∧ s3.center_tick = some c ∧
      ev = [TransportEvent.readPresent t, TransportEvent.writeTorque 0] ∧
      ∃ s4 ev4, set_torque s3 true r = some (s4, ev4) ∧
        s4.center_tick = s3.center_tick ∧ s4.center_offset = s3.center_offset ∧
        ev4 = [TransportEvent.writeTorque 1] := by
  have h1 : set_torque s false t =
      some ({ s with st := { s.st with torque := false }, center_offset := t - c },
            [TransportEvent.readPresent t, TransportEvent.writeTorque 0]) := by
    simp [set_torque, hc]
  exact ⟨_, _, h1, rfl, hc, rfl, _, _, rfl, rfl, rfl, rfl⟩

/-- C8 witness: the spec's scenario, tick 3100 with center 3046, records
`center_offset = 54`. -/
theorem C8_torque_offset_witness :
    ∃ s3 ev, set_torque (startupState 3046) false 3100 = some (s3, ev) ∧
      s3.center_offset = 54 := by
  obtain ⟨s3, ev, h1, h2, -, -, -⟩ := C8_torque_offset (startupState 3046) 3046 3100 0 rfl
  exact ⟨s3, ev, h1, by rw [h2]; norm_num⟩

/-- C9 counterexample: `recenter_motor` adopts whatever the present-position
read returns with no clamping, so a read of 5000 leaves
`center_tick = 5000 > 4095`; the tick-range invariant on the center is not
enforced by the code. -/
theorem C9_counterexample :
    ∃ c : ℤ, (recenter_motor (startupState 3046) 5000).1.center_tick = some c ∧
      4095 < c :=
  ⟨5000, rfl, by norm_num⟩

/-- C9 (amended): `recenter_motor` sets `center_tick` to exactly the value
the present-position read returned (after commanding goal tick 2048), so the
invariant `0 ≤ center_tick ≤ 4095` holds after a recenter precisely when the
value read is itself within `[0, 4095]`. -/
theorem C9_recenter_adopts_read (s : ServerState) (r : ℤ) :
    (recenter_motor s r).1.center_tick = some r ∧
    (recenter_motor s r).2
      = [TransportEvent.writeGoal 2048, TransportEvent.readPresent r] ∧
    (0 ≤ r → r ≤ 4095 → ∀ c : ℤ, (recenter_motor s r).1.center_tick = some c →
        0 ≤ c ∧ c ≤ 4095) := by
  refine ⟨rfl, rfl, ?_⟩
  intro h0 h1 c hcc
  simp only [recenter_motor, Option.some.injEq] at hcc
  omega

/-- C9 witness: a recenter whose read lands at 2048 keeps the center in
range. -/
theorem C9_recenter_adopts_read_witness :
    (recenter_motor (startupState 3046) 2048).1.center_tick = some 2048 ∧
    (0 ≤ (2048 : ℤ) ∧ (2048 : ℤ) ≤ 4095) := by
  refine ⟨(C9_recenter_adopts_read (startupState 3046) 2048).1, ?_⟩
  exact (C9_recenter_adopts_read (startupState 3046) 2048).2.2 (by norm_num) (by norm_num)
    2048 (C9_recenter_adopts_read (startupState 3046) 2048).1

/-- C10: a hand-switch request whose hand is neither "left" nor "right"
fails with the client error before any mutation: the state is unchanged and
no transport event is issued. -/
theorem C10_invalid_hand (s : ServerState) (h : String) (polls : List ℤ)
    (h1 : h ≠ "left") (h2 : h ≠ "right") :
    (set_hand s h polls).resp = .error "hand must be left or right" ∧
    (set_hand s h polls).state = s ∧
    (set_hand s h polls).events = [] := by
  rw [set_hand, if_pos ⟨h1, h2⟩]
  exact ⟨rfl, rfl, rfl⟩

/-- C10 witness: the invalid hand value "up" at the startup state. -/
theorem C10_invalid_hand_witness :
    (set_hand (startupState 3046) "up" []).resp = .error "hand must be left or right" ∧
    (set_hand (startupState 3046) "up" []).state = startupState 3046 ∧
    (set_hand (startupState 3046) "up" []).events = [] :=
  C10_invalid_hand (startupState 3046) "up" [] (by decide) (by decide)

end RehaGrip
